import Mathlib

/-!
# Verification of the session-gated gateway (`src/openai/src/serve/ui.rs`)

A shallow embedding of the gateway's core: the session cookie codec
(serde_json serialization + base64url, `impl ToString for Session` /
`impl TryFrom<&str> for Session`), the share-data response transformer,
the route registration table of `config`, and the request handlers
`get_chat_info`, `get_share_chat`, `get_share_chat_info`,
`get_share_chat_continue`, `get_share_chat_continue_info`, `get_logout`,
`cf_captcha_check` and `get_static_resource`.

Rust strings are modelled as lists of bytes (`List Nat`, UTF-8 bytes of the
Rust string, each `< 256`); machine integers `i64` as `Int`.  External
collaborators (the upstream API, the token validator `crate::token::check`,
the captcha verification service) are passed in as explicit parameters, so
theorems quantify over every possible behaviour of those collaborators.
-/

namespace NinjaUi

/-- Bytes of an ASCII string literal (for ASCII text this equals its UTF-8). -/
def ascii (s : String) : List Nat := s.toList.map Char.toNat

/-! ## Session (`struct Session`, ui.rs lines 41-50) -/

/-- `struct Session` from ui.rs: string fields are byte lists, `i64` fields
are `Int`. -/
structure Session where
  refresh_token : Option (List Nat)
  access_token : List Nat
  user_id : List Nat
  email : List Nat
  picture : Option (List Nat)
  expires_in : Int
  expires : Int
deriving DecidableEq, Repr

/-! ## base64 (URL_SAFE engine with padding)

Model of `base64::engine::general_purpose::URL_SAFE` used by the codec:
`encode` on 3-byte groups producing the url-safe alphabet with `=` padding,
`decode` the strict reverse. -/

/-- URL-safe base64 alphabet: 6-bit value to ASCII byte. -/
def b64char (v : Nat) : Nat :=
  if v < 26 then 65 + v
  else if v < 52 then 97 + (v - 26)
  else if v < 62 then 48 + (v - 52)
  else if v = 62 then 45
  else 95

/-- URL-safe base64 alphabet: ASCII byte back to 6-bit value. -/
def b64val (c : Nat) : Option Nat :=
  if 65 ≤ c ∧ c ≤ 90 then some (c - 65)
  else if 97 ≤ c ∧ c ≤ 122 then some (c - 97 + 26)
  else if 48 ≤ c ∧ c ≤ 57 then some (c - 48 + 52)
  else if c = 45 then some 62
  else if c = 95 then some 63
  else none

/-- base64url encoding of a byte list, with `=` padding. -/
def b64encode : List Nat → List Nat
  | [] => []
  | [a] => [b64char (a / 4), b64char (a % 4 * 16), 61, 61]
  | [a, b] => [b64char (a / 4), b64char (a % 4 * 16 + b / 16), b64char (b % 16 * 4), 61]
  | a :: b :: c :: rest =>
      b64char (a / 4) :: b64char (a % 4 * 16 + b / 16) ::
      b64char (b % 16 * 4 + c / 64) :: b64char (c % 64) :: b64encode rest

/-- base64url decoding; fails (`none`) on bad length, bad characters or
misplaced padding. -/
def b64decode : List Nat → Option (List Nat)
  | [] => some []
  | c1 :: c2 :: c3 :: c4 :: rest =>
      match b64val c1, b64val c2 with
      | some v1, some v2 =>
        if c3 = 61 then
          if c4 = 61 ∧ rest = [] then some [v1 * 4 + v2 / 16] else none
        else
          match b64val c3 with
          | some v3 =>
            if c4 = 61 then
              if rest = [] then some [v1 * 4 + v2 / 16, v2 % 16 * 16 + v3 / 4] else none
            else
              match b64val c4 with
              | some v4 =>
                match b64decode rest with
                | some tail =>
                    some ((v1 * 4 + v2 / 16) :: (v2 % 16 * 16 + v3 / 4) :: (v3 % 4 * 64 + v4) :: tail)
                | none => none
              | none => none
          | none => none
      | _, _ => none
  | _ => none

/-! ## JSON string escaping (model of serde_json's serializer escape table)

serde_json escapes `"` and `\`, the control characters `\b \t \n \f \r`,
and every other byte below 0x20 as `\u00XX` (lowercase hex); every other
byte is emitted verbatim. -/

/-- Lowercase hex digit byte of a value `< 16`. -/
def hexDig (n : Nat) : Nat := if n < 10 then 48 + n else 87 + n

/-- Hex digit byte back to its value. -/
def hexVal (c : Nat) : Option Nat :=
  if 48 ≤ c ∧ c ≤ 57 then some (c - 48)
  else if 97 ≤ c ∧ c ≤ 102 then some (c - 97 + 10)
  else if 65 ≤ c ∧ c ≤ 70 then some (c - 65 + 10)
  else none

/-- serde_json's escape of a single byte inside a JSON string. -/
def escapeByte (b : Nat) : List Nat :=
  if b = 34 then [92, 34]
  else if b = 92 then [92, 92]
  else if b = 8 then [92, 98]
  else if b = 9 then [92, 116]
  else if b = 10 then [92, 110]
  else if b = 12 then [92, 102]
  else if b = 13 then [92, 114]
  else if b < 32 then [92, 117, 48, 48, hexDig (b / 16), hexDig (b % 16)]
  else [b]

/-- Escape a whole string body. -/
def escapeStr : List Nat → List Nat
  | [] => []
  | b :: rest => escapeByte b ++ escapeStr rest

/-- Named escape characters understood by the string reader. -/
def unescapeChar (e : Nat) : Option Nat :=
  if e = 34 then some 34
  else if e = 92 then some 92
  else if e = 47 then some 47
  else if e = 98 then some 8
  else if e = 116 then some 9
  else if e = 110 then some 10
  else if e = 102 then some 12
  else if e = 114 then some 13
  else none

/-- Read a JSON string body up to (and consuming) the closing quote,
undoing escapes; returns the body bytes and the remaining input. -/
def parseStrBody : List Nat → Option (List Nat × List Nat)
  | [] => none
  | 34 :: rest => some ([], rest)
  | 92 :: 117 :: h1 :: h2 :: h3 :: h4 :: rest3 =>
    match hexVal h1, hexVal h2, hexVal h3, hexVal h4 with
    | some v1, some v2, some v3, some v4 =>
        (parseStrBody rest3).map fun p => ((((v1 * 16 + v2) * 16 + v3) * 16 + v4) :: p.1, p.2)
    | _, _, _, _ => none
  | 92 :: [] => none
  | 92 :: e :: rest2 =>
    match unescapeChar e with
    | some b2 => (parseStrBody rest2).map fun p => (b2 :: p.1, p.2)
    | none => none
  | b :: rest => (parseStrBody rest).map fun p => (b :: p.1, p.2)

/-! ## Decimal integer literals (serde_json's `i64` serialization) -/

/-- Big-endian decimal digit bytes of `n`; `fuel ≥ n` makes it exact. -/
def natDigits : Nat → Nat → List Nat
  | 0, _ => []
  | fuel + 1, n => if n < 10 then [n + 48] else natDigits fuel (n / 10) ++ [n % 10 + 48]

/-- Decimal byte string of a natural number. -/
def natLit (n : Nat) : List Nat := if n = 0 then [48] else natDigits n n

/-- Decimal byte string of an `i64` value. -/
def intLit (i : Int) : List Nat := if i < 0 then 45 :: natLit (-i).toNat else natLit i.toNat

def isDigit (b : Nat) : Bool := 48 ≤ b && b ≤ 57

/-- Consume a maximal run of decimal digits, accumulating their value. -/
def parseDigitsAux (acc : Nat) : List Nat → Nat × List Nat
  | [] => (acc, [])
  | b :: rest => if isDigit b then parseDigitsAux (acc * 10 + (b - 48)) rest else (acc, b :: rest)

/-- Read a decimal natural number (at least one digit). -/
def parseNatLit : List Nat → Option (Nat × List Nat)
  | [] => none
  | b :: rest => if isDigit b then some (parseDigitsAux (b - 48) rest) else none

/-- Read a decimal integer with optional leading minus sign. -/
def parseIntLit : List Nat → Option (Int × List Nat)
  | [] => none
  | b :: rest =>
    if b = 45 then (parseNatLit rest).map fun p => (-(p.1 : Int), p.2)
    else (parseNatLit (b :: rest)).map fun p => ((p.1 : Int), p.2)

/-! ## Session JSON codec

`impl ToString for Session` (ui.rs lines 52-58): `serde_json::to_string`
followed by `base64::engine::general_purpose::URL_SAFE.encode`.  serde emits
the fields in declaration order:
`{"refresh_token":…,"access_token":…,"user_id":…,"email":…,"picture":…,"expires_in":…,"expires":…}`.

`impl TryFrom<&str> for Session` (ui.rs lines 60-69): URL_SAFE base64 decode,
then `serde_json::from_slice`; each failure is mapped to an
`ErrorUnauthorized` (the spec's `InvalidSession`).  The deserializer is
modelled on the canonical field order produced by the serializer. -/

def keyRefresh : List Nat := ascii "\x7b\"refresh_token\":"

def keyAccess : List Nat := ascii ",\"access_token\":\""

def keyUser : List Nat := ascii ",\"user_id\":\""

def keyEmail : List Nat := ascii ",\"email\":\""

def keyPicture : List Nat := ascii ",\"picture\":"

def keyExpiresIn : List Nat := ascii ",\"expires_in\":"

def keyExpires : List Nat := ascii ",\"expires\":"

/-- JSON form of an `Option<String>` field: `null` or a quoted string. -/
def optStrLit : Option (List Nat) → List Nat
  | none => ascii "null"
  | some s => 34 :: (escapeStr s ++ [34])

/-- `serde_json::to_string(&session)` as bytes. -/
def serializeSession (s : Session) : List Nat :=
  keyRefresh ++ optStrLit s.refresh_token ++
  keyAccess ++ escapeStr s.access_token ++ [34] ++
  keyUser ++ escapeStr s.user_id ++ [34] ++
  keyEmail ++ escapeStr s.email ++ [34] ++
  keyPicture ++ optStrLit s.picture ++
  keyExpiresIn ++ intLit s.expires_in ++
  keyExpires ++ intLit s.expires ++ [125]

/-- Consume an expected literal byte sequence, returning the rest. -/
def expectB : List Nat → List Nat → Option (List Nat)
  | [], input => some input
  | _ :: _, [] => none
  | p :: ps, x :: xs => if x = p then expectB ps xs else none

/-- Read either `null` or a JSON string. -/
def parseOptStr : List Nat → Option (Option (List Nat) × List Nat)
  | 110 :: 117 :: 108 :: 108 :: rest => some (none, rest)
  | 34 :: rest => (parseStrBody rest).map fun p => (some p.1, p.2)
  | _ => none

/-- Parse the canonical serialization back into a `Session`
(model of `serde_json::from_slice::<Session>`). -/
def parseSession (bs : List Nat) : Option Session :=
  (expectB keyRefresh bs).bind fun r1 =>
  (parseOptStr r1).bind fun (rt, r2) =>
  (expectB keyAccess r2).bind fun r3 =>
  (parseStrBody r3).bind fun (at_, r4) =>
  (expectB keyUser r4).bind fun r5 =>
  (parseStrBody r5).bind fun (uid, r6) =>
  (expectB keyEmail r6).bind fun r7 =>
  (parseStrBody r7).bind fun (em, r8) =>
  (expectB keyPicture r8).bind fun r9 =>
  (parseOptStr r9).bind fun (pic, r10) =>
  (expectB keyExpiresIn r10).bind fun r11 =>
  (parseIntLit r11).bind fun (ein, r12) =>
  (expectB keyExpires r12).bind fun r13 =>
  (parseIntLit r13).bind fun (exp_, r14) =>
  (expectB [125] r14).bind fun r15 =>
  if r15 = [] then
    some { refresh_token := rt, access_token := at_, user_id := uid, email := em,
           picture := pic, expires_in := ein, expires := exp_ }
  else none

/-- Errors of the cookie decoder: bad base64, or JSON that does not fit the
schema.  Both are reported as `ErrorUnauthorized` by the source. -/
inductive DecodeErr where
  | badBase64
  | badJson
deriving DecidableEq, Repr

/-- `session.to_string()`: canonical JSON then base64url. -/
def encodeSession (s : Session) : List Nat := b64encode (serializeSession s)

/-- `Session::try_from(&str)`: base64url decode then JSON deserialize. -/
def decodeSession (input : List Nat) : Except DecodeErr Session :=
  match b64decode input with
  | none => .error .badBase64
  | some bytes =>
    match parseSession bytes with
    | none => .error .badJson
    | some s => .ok s

/-! ## Codec roundtrip -/

/-- A Rust string models as bytes `< 256`. -/
def strWF (s : List Nat) : Bool := s.all (· < 256)

def optStrWF : Option (List Nat) → Bool
  | none => true
  | some s => strWF s

/-- All string fields of the session consist of genuine bytes. -/
def sessionWF (s : Session) : Bool :=
  optStrWF s.refresh_token && strWF s.access_token && strWF s.user_id &&
  strWF s.email && optStrWF s.picture

/-! ## JSON values and the share-data transform

`serde_json::Value`, restricted to what the handlers build.  Object fields
keep insertion order; `Map::insert` on an existing key replaces the value in
place (as serde_json's map does). -/

inductive Json where
  | null
  | bool (b : Bool)
  | num (n : Int)
  | str (s : List Nat)
  | arr (elems : List Json)
  | obj (fields : List (String × Json))

/-- `Value::get` on an object: value of the first field with the key. -/
def jsonGet (j : Json) (key : String) : Option Json :=
  match j with
  | .obj fields => (fields.find? (fun kv => kv.1 = key)).map Prod.snd
  | _ => none

def insertField : List (String × Json) → String → Json → List (String × Json)
  | [], k, v => [(k, v)]
  | (k0, v0) :: rest, k, v =>
      if k0 = k then (k, v) :: rest else (k0, v0) :: insertField rest k v

/-- `Map::insert` through `as_object_mut`; leaves non-objects unchanged. -/
def jsonInsert (j : Json) (key : String) (v : Json) : Json :=
  match j with
  | .obj fields => .obj (insertField fields key v)
  | _ => j

/-- `Option<String>` rendered as a JSON value (`null` / string). -/
def jsonOfOptStr : Option (List Nat) → Json
  | none => Json.null
  | some s => Json.str s

/-- Bytes of the canonical upstream web origin `https://chat.openai.com`. -/
def originBytes : List Nat := ascii "https:" ++ [47, 47] ++ ascii "chat.openai.com"

/-- One pass of `str::replace(pat, "")` specialised to the origin: remove
every non-overlapping occurrence, scanning left to right.  The fuel is the
input length, which suffices. -/
def stripOriginF : Nat → List Nat → List Nat
  | 0, l => l
  | _ + 1, [] => []
  | fuel + 1, a :: rest =>
    if originBytes.isPrefixOf (a :: rest) then
      stripOriginF fuel (List.drop (originBytes.length - 1) rest)
    else a :: stripOriginF fuel rest

/-- `value.replace("https://chat.openai.com", "")` on byte strings. -/
def stripOrigin (s : List Nat) : List Nat := stripOriginF s.length s

/-- Rust `str::contains` (substring containment). -/
def containsSub (pat : List Nat) : List Nat → Bool
  | [] => pat.isEmpty
  | a :: rest => pat.isPrefixOf (a :: rest) || containsSub pat rest

/-- The `continue_conversation_url` field name. -/
def ccuKey : String := "continue_conversation_url"

/-- The share-data rewrite done by all three share handlers (ui.rs
lines 441-453, 533-542, 598-607): if the body has a string field
`continue_conversation_url`, replace it by the value with every occurrence
of the upstream origin removed. -/
def transformShareData (j : Json) : Json :=
  match jsonGet j ccuKey with
  | some (.str s) => jsonInsert j ccuKey (.str (stripOrigin s))
  | _ => j

/-! ## Responses

The handlers build `actix_web::HttpResponse` values; we record exactly the
parts the handlers set: status, `Location` header, cookie, extra headers and
JSON/HTML body. -/

/-- A `Set-Cookie` produced with `Cookie::build`. -/
structure SetCookieM where
  name : List Nat
  value : List Nat
  path : List Nat
  maxAge : Option Int := none
  expiresNow : Bool := false
  sameSiteLax : Bool := true
  secure : Bool := false
  httpOnly : Bool := false

/-- An error raised with `?` through `actix_web::error` (rendered by actix
with the given message as body). -/
inductive RaisedErr where
  | internalServerError (msg : List Nat)
  | unauthorized (msg : List Nat)
  | badRequest (msg : List Nat)

/-- The responses the modelled handlers can produce. -/
inductive Resp where
  | found (location : List Nat)
  | seeOtherCookie (cookie : SetCookieM) (location : List Nat)
  | permanentRedirect (location : List Nat)
  | temporaryRedirectJson (body : Json)
  | okJson (headers : List (List Nat × List Nat)) (body : Json)
  | okHtml (template : String) (props : Json)
  | okStatic (mime data : List Nat)
  | notFoundEmpty
  | raised (e : RaisedErr)

/-- HTTP status code of a modelled response. -/
def Resp.status : Resp → Nat
  | .found _ => 302
  | .seeOtherCookie _ _ => 303
  | .permanentRedirect _ => 308
  | .temporaryRedirectJson _ => 307
  | .okJson _ _ => 200
  | .okHtml _ _ => 200
  | .okStatic _ _ => 200
  | .notFoundEmpty => 404
  | .raised (.internalServerError _) => 500
  | .raised (.unauthorized _) => 401
  | .raised (.badRequest _) => 400

/-- `redirect_login` (ui.rs lines 715-719): 302 Found to `/auth/login`. -/
def redirect_login : Resp := .found (ascii "/auth/login")

/-! ## Session extraction

`extract_session` (ui.rs lines 706-713): decode the cookie value, then
re-check the embedded access token with `crate::token::check`.  The token
validator lives outside this file's source, so it is a parameter
`checkToken`; theorems quantify over it. -/

/-- Errors of `extract_session`. -/
inductive ExtractErr where
  | invalidSession
  | badToken
deriving DecidableEq, Repr

/-- `extract_session` over a token-validator oracle. -/
def extract_session (checkToken : List Nat → Bool) (value : List Nat) :
    Except ExtractErr Session :=
  match decodeSession value with
  | .error _ => .error .invalidSession
  | .ok s => if checkToken s.access_token then .ok s else .error .badToken

/-! ## Envelope bodies -/

/-- `BUILD_ID` (ui.rs line 27). -/
def BUILD_ID : String := "XmKrBoPpskgF_4RiIX1jm"

/-- The per-user JSON object embedded in several envelopes. -/
def userJson (s : Session) : Json :=
  .obj [("id", .str s.user_id), ("name", .str s.email), ("email", .str s.email),
        ("image", jsonOfOptStr s.picture), ("picture", jsonOfOptStr s.picture),
        ("groups", .arr [])]

/-- The common "session props" object (`user`, `serviceStatus`, …). -/
def sessionProps (s : Session) : List (String × Json) :=
  [("user", userJson s), ("serviceStatus", .obj []), ("userCountry", .str (ascii "US")),
   ("geoOk", .bool true),
   ("serviceAnnouncement", .obj [("paid", .obj []), ("public", .obj [])]),
   ("isUserInCanPayGroup", .bool true)]

/-- Data-endpoint body of `get_chat_info` for a valid session
(ui.rs lines 392-412). -/
def chatInfoBody (s : Session) : Json :=
  .obj [("pageProps", .obj (sessionProps s)), ("__N_SSP", .bool true)]

/-- Soft-redirect body of `get_chat_info` for an invalid session
(ui.rs lines 417-419). -/
def softRedirectBody : Json :=
  .obj [("pageProps", .obj [("__N_REDIRECT", .str (ascii "/auth/login?")),
                            ("__N_REDIRECT_STATUS", .num 307)]),
        ("__N_SSP", .bool true)]

/-- 307 body of `get_share_chat_continue_info` for an invalid session
(ui.rs lines 662-669). -/
def softRedirectNextBody (share_id : List Nat) : Json :=
  .obj [("pageProps",
          .obj [("__N_REDIRECT",
                  .str (ascii "/auth/login?next=%2Fshare%2F" ++ share_id ++ ascii "%2Fcontinue")),
                ("__N_REDIRECT_STATUS", .num 307)]),
        ("__N_SSP", .bool true)]

/-- Full-page props of `get_share_chat` on upstream success
(ui.rs lines 455-478). -/
def sharePageProps (share_id : List Nat) (share_data : Json) : Json :=
  .obj [("props",
          .obj [("pageProps",
                  .obj [("sharedConversationId", .str share_id),
                        ("serverResponse",
                          .obj [("type", .str (ascii "data")), ("data", share_data)]),
                        ("continueMode", .bool false), ("moderationMode", .bool false),
                        ("chatPageProps", .obj [])]),
                ("__N_SSP", .bool true)]),
        ("page", .str (ascii "/share/[[...shareParams]]")),
        ("query", .obj [("shareParams", .arr [.str share_id])]),
        ("buildId", .str (ascii BUILD_ID)), ("isFallback", .bool false),
        ("gssp", .bool true), ("scriptLoader", .arr [])]

/-- 404 page props of `get_share_chat` when the upstream body fails to
parse (ui.rs lines 485-496). -/
def sharePage404Props : Json :=
  .obj [("props", .obj [("pageProps", .obj [("statusCode", .num 404)])]),
        ("page", .str (ascii "/_error")), ("query", .obj []),
        ("buildId", .str (ascii BUILD_ID)), ("nextExport", .bool true),
        ("isFallback", .bool false), ("gip", .bool true), ("scriptLoader", .arr [])]

/-- Data body of `get_share_chat_info` on upstream success
(ui.rs lines 544-557). -/
def shareInfoBody (share_id : List Nat) (share_data : Json) : Json :=
  .obj [("pageProps",
          .obj [("sharedConversationId", .str share_id),
                ("serverResponse", .obj [("type", .str (ascii "data")), ("data", share_data)]),
                ("continueMode", .bool false), ("moderationMode", .bool false),
                ("chatPageProps", .obj [])]),
        ("__N_SSP", .bool true)]

/-- Data body of `get_share_chat_continue_info` on upstream success
(ui.rs lines 608-653). -/
def shareContinueInfoBody (s : Session) (share_id : List Nat) (share_data : Json) : Json :=
  .obj [("pageProps",
          .obj (sessionProps s ++
            [("sharedConversationId", .str share_id),
             ("serverResponse", .obj [("type", .str (ascii "data")), ("data", share_data)]),
             ("continueMode", .bool true), ("moderationMode", .bool false),
             ("chatPageProps", .obj (sessionProps s))])),
        ("__N_SSP", .bool true)]

/-- `{"notFound": true}`. -/
def notFoundBody : Json := .obj [("notFound", .bool true)]

/-! ## Handlers -/

/-- Outcome of the upstream share request as the handler observes it:
either `send()` returned `Err` (transport failure, message text `msg`), or a
response body arrived and `resp.json::<Value>()` produced `parsed`
(`none` when the body is not valid JSON). -/
inductive Upstream where
  | sendErr (msg : List Nat)
  | body (parsed : Option Json)

/-- `get_chat_info` (ui.rs lines 388-425), serving
`/_next/data/{BUILD_ID}/index.json` and `/_next/data/{BUILD_ID}/c/{id}.json`. -/
def get_chat_info (checkToken : List Nat → Bool) (cookie : Option (List Nat)) : Resp :=
  match cookie with
  | some v =>
    match extract_session checkToken v with
    | .ok session => .okJson [] (chatInfoBody session)
    | .error _ => .okJson [] softRedirectBody
  | none => redirect_login

/-- `get_share_chat` (ui.rs lines 427-515), serving `GET /share/{id}`. -/
def get_share_chat (checkToken : List Nat → Bool) (cookie : Option (List Nat))
    (share_id : List Nat) (upstream : Upstream) : Resp :=
  match cookie with
  | some v =>
    match extract_session checkToken v with
    | .ok _session =>
      match upstream with
      | .sendErr msg => .raised (.internalServerError msg)
      | .body (some share_data) =>
          .okHtml "share.htm" (sharePageProps share_id (transformShareData share_data))
      | .body none => .okHtml "404.htm" sharePage404Props
    | .error _ => .found (ascii "/auth/login?next=%2Fshare%2F" ++ share_id)
  | none => redirect_login

/-- `get_share_chat_info` (ui.rs lines 517-572), serving
`/_next/data/{BUILD_ID}/share/{id}.json`. -/
def get_share_chat_info (checkToken : List Nat → Bool) (cookie : Option (List Nat))
    (share_id : List Nat) (upstream : Upstream) : Resp :=
  match cookie with
  | some v =>
    match extract_session checkToken v with
    | .ok _session =>
      match upstream with
      | .sendErr msg => .raised (.internalServerError msg)
      | .body (some share_data) =>
          .okJson [] (shareInfoBody share_id (transformShareData share_data))
      | .body none => .okJson [] notFoundBody
    | .error _ => .found (ascii "/auth/login?next=%2Fshare%2F" ++ share_id)
  | none => redirect_login

/-- `get_share_chat_continue` (ui.rs lines 574-581), serving
`GET /share/{id}/continue`: an unconditional 308 permanent redirect. -/
def get_share_chat_continue (share_id : List Nat) : Resp :=
  .permanentRedirect (ascii "/share/" ++ share_id)

/-- `get_share_chat_continue_info` (ui.rs lines 583-674), serving
`/_next/data/{BUILD_ID}/share/{id}/continue.json`. -/
def get_share_chat_continue_info (checkToken : List Nat → Bool) (cookie : Option (List Nat))
    (share_id : List Nat) (upstream : Upstream) : Resp :=
  match cookie with
  | some v =>
    match extract_session checkToken v with
    | .ok session =>
      match upstream with
      | .sendErr msg => .raised (.internalServerError msg)
      | .body (some share_data) =>
          .okJson [] (shareContinueInfoBody session share_id (transformShareData share_data))
      | .body none =>
          .okJson [(ascii "referrer-policy", ascii "same-origin")] notFoundBody
    | .error _ => .temporaryRedirectJson (softRedirectNextBody share_id)
  | none => redirect_login

/-- The cleared cookie set by `get_logout` (ui.rs lines 288-297): empty
value, `Path=/`, expiry `now`. -/
def clearedCookie : SetCookieM :=
  { name := ascii "opengpt_session", value := [], path := ascii "/", expiresNow := true }

/-- Result of `get_logout`: whether revocation was attempted (with which
refresh token) and the response. -/
structure LogoutOutcome where
  revokeAttempted : Option (List Nat)
  resp : Resp

/-- `get_logout` (ui.rs lines 277-300).  `revokeOutcome` is the (ignored)
result of the best-effort `do_revoke_token` call. -/
def get_logout (cookie : Option (List Nat)) (_revokeOutcome : Except (List Nat) Unit) :
    LogoutOutcome :=
  let attempted : Option (List Nat) :=
    match cookie with
    | some v =>
      match decodeSession v with
      | .ok session => session.refresh_token
      | .error _ => none
    | none => none
  { revokeAttempted := attempted
    resp := .seeOtherCookie clearedCookie (ascii "/auth/login") }

/-! ## Captcha check -/

/-- `TemplateData` (ui.rs lines 92-99). -/
structure TemplateData where
  api_prefix : Option (List Nat)
  cf_site_key : Option (List Nat)
  cf_secret_key : Option (List Nat)

/-- The form sent to the verification endpoint. -/
structure CfCaptchaForm where
  secret : List Nat
  response : List Nat
  remoteip : List Nat
  idempotency_key : List Nat

/-- Observable outcome of `cf_captcha_check`: failed or passed without any
network call, or performed the verification call with a given form. -/
inductive CfResult where
  | errNoCall (msg : List Nat)
  | okNoCall
  | verified (form : CfCaptchaForm) (result : Except (List Nat) Unit)

/-- Outcome of the verification network call:
`sendErr` for a transport failure, otherwise whether
`error_for_status` passed. -/
inductive CfNet where
  | sendErr (msg : List Nat)
  | status (ok : Bool) (msg : List Nat)

/-- `cf_captcha_check` (ui.rs lines 749-781), with the network's behaviour
passed as `net` and the peer address / fresh uuid as parameters. -/
def cf_captcha_check (data : TemplateData) (cf_response : Option (List Nat))
    (remoteip uuid : List Nat) (net : CfNet) : CfResult :=
  match data.cf_site_key, data.cf_secret_key with
  | some _, some secret =>
    (match cf_response with
     | some r =>
       if r = [] then .errNoCall (ascii "Missing cf_captcha_response")
       else
         .verified
           { secret := secret, response := r, remoteip := remoteip, idempotency_key := uuid }
           (match net with
            | .sendErr m => .error m
            | .status true _ => .ok ()
            | .status false m => .error m)
     | none => .errNoCall (ascii "Missing cf_captcha_response"))
  | _, _ => .okNoCall

/-! ## Static resources -/

/-- A bundled asset (`static_files::Resource`): payload and mime type. -/
structure StaticResource where
  mime : List Nat
  data : List Nat

/-- `get_static_resource` (ui.rs lines 783-790): scan the asset map in
iteration order for the first key that CONTAINS the request path as a
substring; 404 when none does.  The map and its iteration order are a
parameter (`HashMap` iteration order is arbitrary). -/
def get_static_resource (files : List (List Nat × StaticResource)) (path : List Nat) : Resp :=
  match files.find? (fun kv => containsSub path kv.1) with
  | some kv => .okStatic kv.2.mime kv.2.data
  | none => .notFoundEmpty

/-! ## Route registration (`config`, ui.rs lines 112-179)

The service table, in registration order.  actix matches routes in that
order; a path pattern segment is either a literal, a one-segment capture
`\x7bname\x7d` (non-empty segment), a capture with a literal suffix such as
`\x7bid\x7d.json`, a wildcard tail `\x7btail:.*\x7d`, or the static-file
extension glob of line 169.  `web::redirect` and `web::to` services accept
any method. -/

inductive Seg where
  | lit (s : String)
  | cap
  | capSuffix (suffix : String)
  | tail
  | extGlob
deriving DecidableEq

inductive HMethod where
  | get
  | post
deriving DecidableEq

/-- Handler names, in ui.rs. -/
inductive HandlerTag where
  | hGetAuth
  | hGetLogin
  | hPostLogin
  | hPostLoginToken
  | hGetLogout
  | hGetSession
  | hGetChat
  | hRedirect (target : String)
  | hGetShareChat
  | hGetShareChatContinue
  | hGetChatInfo
  | hGetShareChatInfo
  | hGetShareChatContinueInfo
  | hGetImage
  | hGetStaticResource
  | hError404
deriving DecidableEq

/-- The extension glob `.+\.(png|js|css|webp|json)` of ui.rs line 169,
matched against the joined remaining path. -/
def extGlobMatch (segs : List String) : Bool :=
  let joined := String.intercalate "/" segs
  [".png", ".js", ".css", ".webp", ".json"].any fun e =>
    joined.endsWith e && decide (e.length < joined.length)

/-- Match a pattern against the path segments. -/
def segsMatch : List Seg → List String → Bool
  | [], [] => true
  | .lit s :: ps, x :: xs => s == x && segsMatch ps xs
  | .cap :: ps, x :: xs => x != "" && segsMatch ps xs
  | .capSuffix suf :: ps, x :: xs =>
      x.endsWith suf && decide (suf.length < x.length) && segsMatch ps xs
  | [.tail], _ => true
  | _, _ => false

/-- One registered service: accepted method (`none` = any), pattern,
handler. -/
structure RouteEntry where
  method : Option HMethod
  pattern : List Seg
  handler : HandlerTag

/-- The registration list of `config` (ui.rs lines 130-177), in order. -/
def routeTable : List RouteEntry :=
  [⟨some .get, [.lit "auth"], .hGetAuth⟩,
   ⟨some .get, [.lit "auth", .lit "login"], .hGetLogin⟩,
   ⟨some .post, [.lit "auth", .lit "login"], .hPostLogin⟩,
   ⟨some .post, [.lit "auth", .lit "login", .lit "token"], .hPostLoginToken⟩,
   ⟨some .get, [.lit "auth", .lit "logout"], .hGetLogout⟩,
   ⟨some .get, [.lit "auth", .lit "session"], .hGetSession⟩,
   ⟨some .get, [], .hGetChat⟩,
   ⟨some .get, [.lit "c"], .hGetChat⟩,
   ⟨some .get, [.lit "c", .cap], .hGetChat⟩,
   ⟨none, [.lit "chat"], .hRedirect "/"⟩,
   ⟨none, [.lit "chat", .cap], .hRedirect "/"⟩,
   ⟨some .get, [.lit "share", .cap], .hGetShareChat⟩,
   ⟨some .get, [.lit "share", .cap, .lit "continue"], .hGetShareChatContinue⟩,
   ⟨some .get, [.lit "_next", .lit "data", .lit BUILD_ID, .lit "index.json"], .hGetChatInfo⟩,
   ⟨some .get, [.lit "_next", .lit "data", .lit BUILD_ID, .lit "c", .capSuffix ".json"],
     .hGetChatInfo⟩,
   ⟨some .get, [.lit "_next", .lit "data", .lit BUILD_ID, .lit "share", .capSuffix ".json"],
     .hGetShareChatInfo⟩,
   ⟨some .get, [.lit "_next", .lit "data", .lit BUILD_ID, .lit "share", .cap,
     .lit "continue.json"], .hGetShareChatContinueInfo⟩,
   ⟨some .get, [.lit "_next", .lit "image"], .hGetImage⟩,
   ⟨some .get, [.extGlob], .hGetStaticResource⟩,
   ⟨none, [.lit "_next", .lit "static", .tail], .hGetStaticResource⟩,
   ⟨none, [.lit "fonts", .tail], .hGetStaticResource⟩,
   ⟨none, [.lit "ulp", .tail], .hGetStaticResource⟩,
   ⟨none, [.lit "sweetalert2", .tail], .hGetStaticResource⟩]

/-- Does a route entry accept the request method? -/
def methodOk (m : HMethod) : Option HMethod → Bool
  | none => true
  | some m0 => m == m0

/-- Does a route entry match?  The extension-glob entry matches per
`extGlobMatch` against the whole remaining path (its regex `.+` crosses
segment boundaries). -/
def entryMatch (m : HMethod) (path : List String) (e : RouteEntry) : Bool :=
  methodOk m e.method &&
    (match e.pattern with
     | [Seg.extGlob] => extGlobMatch path
     | p => segsMatch p path)

/-- First-match dispatch over the registered table; the default service is
`get_error_404`. -/
def dispatch (m : HMethod) (path : List String) : HandlerTag :=
  match routeTable.find? (entryMatch m path) with
  | some e => e.handler
  | none => .hError404

/-! ## Sample data for concrete instantiations -/

/-- A concrete well-formed session. -/
def sampleSession : Session :=
  { refresh_token := some (ascii "rt0"), access_token := ascii "tok",
    user_id := ascii "user-1", email := ascii "e@x.io", picture := none,
    expires_in := 3600, expires := 1700000000 }

/-- A concrete asset map with a single registered key `app.js`. -/
def sampleFiles : List (List Nat × StaticResource) :=
  [(ascii "app.js", { mime := ascii "text/javascript", data := ascii "JSDATA" })]

/-! ## Lemmas and claim theorems -/

lemma b64val_b64char : ∀ v, v < 64 → b64val (b64char v) = some v := by decide

lemma b64char_ne_61 : ∀ v, b64char v ≠ 61 := by
  intro v
  unfold b64char
  split_ifs <;> omega

lemma b64decode_pad2 (c1 c2 : Nat) (v1 v2 : Nat)
    (h1 : b64val c1 = some v1) (h2 : b64val c2 = some v2) :
    b64decode [c1, c2, 61, 61] = some [v1 * 4 + v2 / 16] := by
  simp [b64decode, h1, h2]

lemma b64decode_pad1 (c1 c2 c3 : Nat) (v1 v2 v3 : Nat)
    (h1 : b64val c1 = some v1) (h2 : b64val c2 = some v2) (h3 : b64val c3 = some v3)
    (hc3 : c3 ≠ 61) :
    b64decode [c1, c2, c3, 61] = some [v1 * 4 + v2 / 16, v2 % 16 * 16 + v3 / 4] := by
  simp [b64decode, h1, h2, h3, hc3]

lemma b64decode_full (c1 c2 c3 c4 : Nat) (rest : List Nat) (v1 v2 v3 v4 : Nat)
    (h1 : b64val c1 = some v1) (h2 : b64val c2 = some v2) (h3 : b64val c3 = some v3)
    (h4 : b64val c4 = some v4) (hc3 : c3 ≠ 61) (hc4 : c4 ≠ 61) :
    b64decode (c1 :: c2 :: c3 :: c4 :: rest) =
      match b64decode rest with
      | some tail =>
          some ((v1 * 4 + v2 / 16) :: (v2 % 16 * 16 + v3 / 4) :: (v3 % 4 * 64 + v4) :: tail)
      | none => none := by
  simp [b64decode, h1, h2, h3, h4, hc3, hc4]

/-- Decoding inverts encoding on genuine byte lists. -/
lemma b64_roundtrip : ∀ bs : List Nat, (∀ b ∈ bs, b < 256) → b64decode (b64encode bs) = some bs := by
  intro bs
  induction bs using b64encode.induct with
  | case1 => intro _; rfl
  | case2 a =>
    intro h
    have ha : a < 256 := h a (by simp)
    simp only [b64encode]
    rw [b64decode_pad2 _ _ _ _ (b64val_b64char _ (by omega)) (b64val_b64char _ (by omega))]
    congr 1
    simp
    omega
  | case3 a b =>
    intro h
    have ha : a < 256 := h a (by simp)
    have hb : b < 256 := h b (by simp)
    simp only [b64encode]
    rw [b64decode_pad1 _ _ _ _ _ _ (b64val_b64char _ (by omega)) (b64val_b64char _ (by omega))
      (b64val_b64char _ (by omega)) (b64char_ne_61 _)]
    congr 1
    simp
    constructor <;> omega
  | case4 a b c rest ih =>
    intro h
    have ha : a < 256 := h a (by simp)
    have hb : b < 256 := h b (by simp)
    have hc : c < 256 := h c (by simp)
    have hrest : ∀ x ∈ rest, x < 256 := fun x hx => h x (by simp [hx])
    simp only [b64encode]
    rw [b64decode_full _ _ _ _ _ _ _ _ _ (b64val_b64char _ (by omega)) (b64val_b64char _ (by omega))
      (b64val_b64char _ (by omega)) (b64val_b64char _ (by omega)) (b64char_ne_61 _) (b64char_ne_61 _)]
    rw [ih hrest]
    have h1 : a / 4 * 4 + (a % 4 * 16 + b / 16) / 16 = a := by omega
    have h2 : (a % 4 * 16 + b / 16) % 16 * 16 + (b % 16 * 4 + c / 64) / 4 = b := by omega
    have h3 : (b % 16 * 4 + c / 64) % 4 * 64 + c % 64 = c := by omega
    simp [h1, h2, h3]

lemma hexVal_hexDig : ∀ x, x < 16 → hexVal (hexDig x) = some x := by decide

lemma parseStrBody_escapeByte (b : Nat) (t s r : List Nat)
    (ih : parseStrBody t = some (s, r)) :
    parseStrBody (escapeByte b ++ t) = some (b :: s, r) := by
  unfold escapeByte
  split_ifs with h1 h2 h3 h4 h5 h6 h7 h8
  · subst h1
    show parseStrBody (92 :: 34 :: t) = _
    rw [show parseStrBody (92 :: 34 :: t) = (parseStrBody t).map (fun p => (34 :: p.1, p.2))
      from rfl, ih]
    rfl
  · subst h2
    show parseStrBody (92 :: 92 :: t) = _
    rw [show parseStrBody (92 :: 92 :: t) = (parseStrBody t).map (fun p => (92 :: p.1, p.2))
      from rfl, ih]
    rfl
  · subst h3
    show parseStrBody (92 :: 98 :: t) = _
    rw [show parseStrBody (92 :: 98 :: t) = (parseStrBody t).map (fun p => (8 :: p.1, p.2))
      from rfl, ih]
    rfl
  · subst h4
    show parseStrBody (92 :: 116 :: t) = _
    rw [show parseStrBody (92 :: 116 :: t) = (parseStrBody t).map (fun p => (9 :: p.1, p.2))
      from rfl, ih]
    rfl
  · subst h5
    show parseStrBody (92 :: 110 :: t) = _
    rw [show parseStrBody (92 :: 110 :: t) = (parseStrBody t).map (fun p => (10 :: p.1, p.2))
      from rfl, ih]
    rfl
  · subst h6
    show parseStrBody (92 :: 102 :: t) = _
    rw [show parseStrBody (92 :: 102 :: t) = (parseStrBody t).map (fun p => (12 :: p.1, p.2))
      from rfl, ih]
    rfl
  · subst h7
    show parseStrBody (92 :: 114 :: t) = _
    rw [show parseStrBody (92 :: 114 :: t) = (parseStrBody t).map (fun p => (13 :: p.1, p.2))
      from rfl, ih]
    rfl
  · have hd1 : hexVal (hexDig (b / 16)) = some (b / 16) := hexVal_hexDig _ (by omega)
    have hd2 : hexVal (hexDig (b % 16)) = some (b % 16) := hexVal_hexDig _ (by omega)
    have h48 : hexVal 48 = some 0 := rfl
    show parseStrBody (92 :: 117 :: 48 :: 48 :: hexDig (b / 16) :: hexDig (b % 16) :: t) = _
    simp [parseStrBody, h48, hd1, hd2, ih]
    omega
  · show parseStrBody (b :: t) = _
    simp [parseStrBody, h1, h2, ih]

/-- Reading a serialized string body recovers the original bytes. -/
lemma parseStrBody_escapeStr (s : List Nat) :
    ∀ r, parseStrBody (escapeStr s ++ (34 :: r)) = some (s, r) := by
  induction s with
  | nil => intro r; simp [escapeStr, parseStrBody]
  | cons b rest ih =>
    intro r
    have := parseStrBody_escapeByte b (escapeStr rest ++ (34 :: r)) rest r (ih r)
    simpa [escapeStr, List.append_assoc] using this

lemma natDigits_digits {fuel n : Nat} : ∀ b ∈ natDigits fuel n, isDigit b = true := by
  induction fuel generalizing n with
  | zero => simp [natDigits]
  | succ fuel ih =>
    intro b hb
    simp only [natDigits] at hb
    split at hb
    · simp at hb
      simp [hb, isDigit]
      omega
    · rw [List.mem_append] at hb
      rcases hb with hb | hb
      · exact ih _ hb
      · simp at hb
        simp [hb, isDigit]
        omega

lemma natDigits_ne_nil {fuel n : Nat} (h : 0 < fuel) : natDigits fuel n ≠ [] := by
  cases fuel with
  | zero => omega
  | succ fuel =>
    simp only [natDigits]
    split
    · simp
    · simp

lemma parseDigitsAux_natDigits (fuel : Nat) :
    ∀ n acc t, n ≤ fuel →
      parseDigitsAux acc (natDigits fuel n ++ t) =
        parseDigitsAux (acc * 10 ^ (natDigits fuel n).length + n) t := by
  induction fuel with
  | zero =>
    intro n acc t hn
    have : n = 0 := by omega
    subst this
    simp [natDigits]
  | succ fuel ih =>
    intro n acc t hn
    by_cases h10 : n < 10
    · simp only [natDigits, if_pos h10, List.cons_append, List.nil_append, List.length_cons,
        List.length_nil]
      have hd : isDigit (n + 48) = true := by simp [isDigit]; omega
      simp [parseDigitsAux, hd]
      try omega
    · have hdiv : n / 10 ≤ fuel := by omega
      simp only [natDigits, if_neg h10, List.append_assoc, List.cons_append, List.nil_append]
      rw [ih (n / 10) acc ((n % 10 + 48) :: t) hdiv]
      have hd : isDigit (n % 10 + 48) = true := by simp [isDigit]; omega
      simp only [parseDigitsAux, hd, if_pos]
      rw [List.length_append]
      simp only [List.length_cons, List.length_nil]
      congr 1
      have : n % 10 + 48 - 48 = n % 10 := by omega
      rw [this]
      rw [pow_succ]
      have hmod := Nat.div_add_mod n 10
      ring_nf
      omega

lemma parseNatLit_natLit (n : Nat) (c : Nat) (r : List Nat) (hc : isDigit c = false) :
    parseNatLit (natLit n ++ (c :: r)) = some (n, c :: r) := by
  have hfuel : 0 < n ∨ n = 0 := by omega
  rcases hfuel with hpos | hzero
  · obtain ⟨d, ds, hds⟩ : ∃ d ds, natDigits n n = d :: ds := by
      cases h : natDigits n n with
      | nil => exact absurd h (natDigits_ne_nil (by omega))
      | cons d ds => exact ⟨d, ds, rfl⟩
    have hd : isDigit d = true := natDigits_digits d (by rw [hds]; simp)
    have key := parseDigitsAux_natDigits n n 0 (c :: r) le_rfl
    rw [hds] at key
    simp only [List.cons_append, parseDigitsAux, hd, if_pos, hc, Bool.false_eq_true,
      if_false, Nat.zero_mul, Nat.zero_add] at key
    have hn0 : (n : Nat) ≠ 0 := by omega
    simp only [natLit, hn0, if_false, hds, List.cons_append, parseNatLit, hd, if_pos,
      Option.some.injEq]
    simpa using key
  · subst hzero
    have h48 : isDigit 48 = true := rfl
    simp only [natLit, if_pos rfl, List.cons_append, List.nil_append, parseNatLit, h48,
      if_pos, parseDigitsAux, hc, Bool.false_eq_true, if_false, Option.some.injEq]
    try simp

lemma natLit_digits {n : Nat} : ∀ b ∈ natLit n, isDigit b = true := by
  unfold natLit
  split
  · intro b hb
    simp at hb
    subst hb
    rfl
  · exact natDigits_digits

lemma natLit_ne_nil {n : Nat} : natLit n ≠ [] := by
  unfold natLit
  split
  · simp
  · exact natDigits_ne_nil (by omega)

lemma parseIntLit_intLit (i : Int) (c : Nat) (r : List Nat)
    (hc : isDigit c = false) :
    parseIntLit (intLit i ++ (c :: r)) = some (i, c :: r) := by
  by_cases hneg : i < 0
  · simp only [intLit, if_pos hneg, List.cons_append, parseIntLit, if_pos rfl]
    rw [parseNatLit_natLit _ _ _ hc]
    simp
    omega
  · simp only [intLit, if_neg hneg]
    obtain ⟨d, ds, hds⟩ : ∃ d ds, natLit i.toNat = d :: ds := by
      cases h : natLit i.toNat with
      | nil => exact absurd h natLit_ne_nil
      | cons d ds => exact ⟨d, ds, rfl⟩
    have hd : isDigit d = true := natLit_digits d (by rw [hds]; simp)
    have hd45 : d ≠ 45 := by
      simp [isDigit] at hd
      omega
    rw [hds, List.cons_append, parseIntLit, if_neg hd45, ← List.cons_append, ← hds]
    rw [parseNatLit_natLit _ _ _ hc]
    simp
    omega

lemma expectB_append (p : List Nat) : ∀ r, expectB p (p ++ r) = some r := by
  induction p with
  | nil => intro r; rfl
  | cons x xs ih => intro r; simp [expectB, ih]

lemma parseOptStr_optStrLit (o : Option (List Nat)) (r : List Nat) :
    parseOptStr (optStrLit o ++ r) = some (o, r) := by
  cases o with
  | none =>
    show parseOptStr (110 :: 117 :: 108 :: 108 :: r) = some (none, r)
    rfl
  | some s =>
    show parseOptStr (34 :: (escapeStr s ++ [34] ++ r)) = some (some s, r)
    have hb : escapeStr s ++ [34] ++ r = escapeStr s ++ (34 :: r) := by
      simp [List.append_assoc]
    rw [hb]
    simp [parseOptStr, parseStrBody_escapeStr]

lemma keyExpiresIn_cons : keyExpiresIn = 44 :: ascii "\"expires_in\":" := rfl

lemma keyExpires_cons : keyExpires = 44 :: ascii "\"expires\":" := rfl

set_option maxHeartbeats 1000000 in
/-- Deserializing the canonical serialization recovers the session. -/
lemma parseSession_serializeSession (s : Session) :
    parseSession (serializeSession s) = some s := by
  obtain ⟨rt, at_, uid, em, pic, ein, exp_⟩ := s
  have h125 : expectB [125] [125] = some [] := rfl
  have hd44 : isDigit 44 = false := rfl
  simp only [serializeSession, parseSession, List.append_assoc, List.cons_append,
    List.singleton_append, List.nil_append]
  rw [expectB_append]
  simp only [Option.some_bind, List.nil_append]
  rw [parseOptStr_optStrLit]
  simp only [Option.some_bind, List.nil_append]
  rw [expectB_append]
  simp only [Option.some_bind, List.nil_append]
  rw [parseStrBody_escapeStr]
  simp only [Option.some_bind, List.nil_append]
  rw [expectB_append]
  simp only [Option.some_bind, List.nil_append]
  rw [parseStrBody_escapeStr]
  simp only [Option.some_bind, List.nil_append]
  rw [expectB_append]
  simp only [Option.some_bind, List.nil_append]
  rw [parseStrBody_escapeStr]
  simp only [Option.some_bind, List.nil_append]
  rw [expectB_append]
  simp only [Option.some_bind, List.nil_append]
  rw [parseOptStr_optStrLit]
  simp only [Option.some_bind, List.nil_append]
  rw [show keyExpiresIn ++ (intLit ein ++ (keyExpires ++ (intLit exp_ ++ [125]))) =
      keyExpiresIn ++ (intLit ein ++ (44 :: (ascii "\"expires\":" ++ (intLit exp_ ++ [125])))) by
    rw [keyExpires_cons]; simp]
  rw [expectB_append]
  simp only [Option.some_bind, List.nil_append]
  rw [parseIntLit_intLit _ _ _ hd44]
  simp only [Option.some_bind, List.nil_append]
  rw [show (44 : Nat) :: (ascii "\"expires\":" ++ (intLit exp_ ++ [125])) =
      keyExpires ++ (intLit exp_ ++ [125]) by rw [keyExpires_cons]; simp]
  rw [expectB_append]
  simp only [Option.some_bind, List.nil_append]
  rw [show (intLit exp_ ++ [125] : List Nat) = intLit exp_ ++ (125 :: []) from rfl]
  rw [parseIntLit_intLit _ _ _ (show isDigit 125 = false from rfl)]
  simp only [Option.some_bind, List.nil_append]
  rw [h125]
  simp only [Option.some_bind, List.nil_append]
  simp only [if_true]

lemma hexDig_lt (n : Nat) (h : n < 16) : hexDig n < 256 := by
  unfold hexDig
  split_ifs <;> omega

lemma escapeByte_lt (b : Nat) (hb : b < 256) : ∀ x ∈ escapeByte b, x < 256 := by
  intro x hx
  unfold escapeByte at hx
  split_ifs at hx
  case _ => simp at hx; rcases hx with hx | hx; omega; omega
  case _ => simp at hx; omega
  case _ => simp at hx; rcases hx with hx | hx; omega; omega
  case _ => simp at hx; rcases hx with hx | hx; omega; omega
  case _ => simp at hx; rcases hx with hx | hx; omega; omega
  case _ => simp at hx; rcases hx with hx | hx; omega; omega
  case _ => simp at hx; rcases hx with hx | hx; omega; omega
  case _ h1 h2 h3 h4 h5 h6 h7 h8 =>
    simp at hx
    rcases hx with hx | hx | hx | hx | hx
    · omega
    · omega
    · omega
    · subst hx; exact hexDig_lt _ (by omega)
    · subst hx; exact hexDig_lt _ (by omega)
  case _ => simp at hx; omega

lemma escapeStr_lt (s : List Nat) (hs : strWF s = true) : ∀ x ∈ escapeStr s, x < 256 := by
  induction s with
  | nil => simp [escapeStr]
  | cons b rest ih =>
    simp only [strWF, List.all_cons, Bool.and_eq_true, decide_eq_true_eq] at hs
    intro x hx
    simp only [escapeStr, List.mem_append] at hx
    rcases hx with hx | hx
    · exact escapeByte_lt b hs.1 x hx
    · exact ih (by simp [strWF, hs.2]) x hx

lemma optStrLit_lt (o : Option (List Nat)) (ho : optStrWF o = true) :
    ∀ x ∈ optStrLit o, x < 256 := by
  cases o with
  | none => revert ho; decide
  | some s =>
    intro x hx
    simp only [optStrLit] at hx
    rcases List.mem_cons.mp hx with hx | hx
    · omega
    rcases List.mem_append.mp hx with hx | hx
    · exact escapeStr_lt s ho x hx
    · simp at hx
      omega

lemma natLit_lt (n : Nat) : ∀ x ∈ natLit n, x < 256 := by
  intro x hx
  have := natLit_digits x hx
  simp [isDigit] at this
  omega

lemma intLit_lt (i : Int) : ∀ x ∈ intLit i, x < 256 := by
  intro x hx
  unfold intLit at hx
  split at hx
  · simp only [List.mem_cons] at hx
    rcases hx with hx | hx
    · omega
    · exact natLit_lt _ x hx
  · exact natLit_lt _ x hx

lemma serializeSession_lt (s : Session) (h : sessionWF s = true) :
    ∀ b ∈ serializeSession s, b < 256 := by
  simp only [sessionWF, Bool.and_eq_true] at h
  obtain ⟨⟨⟨⟨hrt, hat⟩, hid⟩, hem⟩, hpic⟩ := h
  intro b hb
  simp only [serializeSession, List.append_assoc, List.mem_append, List.mem_singleton,
    List.mem_cons, List.not_mem_nil, or_false] at hb
  have hk1 : ∀ x ∈ keyRefresh, x < 256 := by decide
  have hk2 : ∀ x ∈ keyAccess, x < 256 := by decide
  have hk3 : ∀ x ∈ keyUser, x < 256 := by decide
  have hk4 : ∀ x ∈ keyEmail, x < 256 := by decide
  have hk5 : ∀ x ∈ keyPicture, x < 256 := by decide
  have hk6 : ∀ x ∈ keyExpiresIn, x < 256 := by decide
  have hk7 : ∀ x ∈ keyExpires, x < 256 := by decide
  rcases hb with hb | hb | hb | hb | hb | hb | hb | hb | hb | hb | hb | hb | hb | hb | hb | hb | hb | hb
  · exact hk1 b hb
  · exact optStrLit_lt _ hrt b hb
  · exact hk2 b hb
  · exact escapeStr_lt _ hat b hb
  · omega
  · exact hk3 b hb
  · exact escapeStr_lt _ hid b hb
  · omega
  · exact hk4 b hb
  · exact escapeStr_lt _ hem b hb
  · omega
  · exact hk5 b hb
  · exact optStrLit_lt _ hpic b hb
  · exact hk6 b hb
  · exact intLit_lt _ b hb
  · exact hk7 b hb
  · exact intLit_lt _ b hb
  · omega

/-! ## Codec wrapper lemmas -/

/-- Core codec roundtrip, shared by several results below. -/
lemma decode_encode (s : Session) (h : sessionWF s = true) :
    decodeSession (encodeSession s) = .ok s := by
  unfold encodeSession decodeSession
  rw [b64_roundtrip _ (serializeSession_lt s h)]
  simp [parseSession_serializeSession]

/-! ## Lemmas about the origin-stripping transform -/

lemma originBytes_len : originBytes.length = 23 := by decide

lemma containsSub_cons_false {pat a : _} {rest : List Nat}
    (h : containsSub pat (a :: rest) = false) :
    pat.isPrefixOf (a :: rest) = false ∧ containsSub pat rest = false := by
  simpa [containsSub, Bool.or_eq_false_iff] using h

/-- A string with no occurrence of the origin is left unchanged. -/
lemma stripOriginF_clean : ∀ fuel (l : List Nat), l.length ≤ fuel →
    containsSub originBytes l = false → stripOriginF fuel l = l := by
  intro fuel
  induction fuel with
  | zero => intro l _ _; rfl
  | succ fuel ih =>
    intro l hlen hno
    cases l with
    | nil => rfl
    | cons a rest =>
      obtain ⟨hpre, hrest⟩ := containsSub_cons_false hno
      simp only [stripOriginF, hpre, Bool.false_eq_true, if_false]
      rw [ih rest (by simp at hlen; omega) hrest]

/-- Stripping from `origin ++ s` removes the leading origin and continues
on `s`. -/
lemma stripOriginF_prefix : ∀ fuel (s : List Nat),
    (originBytes ++ s).length ≤ fuel → containsSub originBytes s = false →
    stripOriginF fuel (originBytes ++ s) = s := by
  intro fuel s hlen hno
  have h23 : originBytes.length = 23 := originBytes_len
  cases fuel with
  | zero =>
    exfalso
    simp [List.length_append, h23] at hlen
  | succ fuel =>
    have hcons : originBytes ++ s = 104 :: (originBytes.tail ++ s) := by
      rw [show originBytes = 104 :: originBytes.tail from rfl]
      rfl
    rw [hcons]
    have hpre : originBytes.isPrefixOf (104 :: (originBytes.tail ++ s)) = true := by
      rw [← hcons]
      exact List.isPrefixOf_iff_prefix.mpr (List.prefix_append _ _)
    simp only [stripOriginF, hpre, if_true]
    have hdrop : List.drop (originBytes.length - 1) (originBytes.tail ++ s) = s := by
      have htl : (originBytes.tail).length = originBytes.length - 1 := by
        simp [List.length_tail]
      rw [← htl, List.drop_left]
    rw [hdrop]
    apply stripOriginF_clean fuel s _ hno
    simp [List.length_append, h23] at hlen
    omega

/-- `stripOrigin` on a clean string is the identity. -/
lemma stripOrigin_clean (s : List Nat) (h : containsSub originBytes s = false) :
    stripOrigin s = s :=
  stripOriginF_clean s.length s le_rfl h

/-- `stripOrigin` removes a leading origin from an otherwise clean string. -/
lemma stripOrigin_prefix (s : List Nat) (h : containsSub originBytes s = false) :
    stripOrigin (originBytes ++ s) = s :=
  stripOriginF_prefix (originBytes ++ s).length s le_rfl h

/-! ## Claim theorems -/

/-- C2: for every `Session` value (any refresh_token/picture options, any
byte-string access_token/user_id/email, any expires_in/expires integers),
decoding the encoded cookie string round-trips: `decode (encode s) = s`. -/
theorem C2_codec_roundtrip (s : Session) (h : sessionWF s = true) :
    decodeSession (encodeSession s) = .ok s :=
  decode_encode s h

/-- Witness for C2 at a concrete session. -/
theorem C2_codec_roundtrip_witness :
    sessionWF sampleSession = true ∧
    decodeSession (encodeSession sampleSession) = .ok sampleSession :=
  ⟨by decide, C2_codec_roundtrip sampleSession (by decide)⟩

/-- C3: the session decoder is total: on every input it either produces a
session or fails with the InvalidSession-style error (malformed base64 or
JSON-schema mismatch, both mapped to `ErrorUnauthorized` by the source);
being a total function, it cannot crash or panic. -/
theorem C3_decode_total (input : List Nat) :
    (∃ s, decodeSession input = .ok s) ∨
    decodeSession input = .error .badBase64 ∨
    decodeSession input = .error .badJson := by
  unfold decodeSession
  cases hb : b64decode input with
  | none => simp
  | some bytes =>
    cases hp : parseSession bytes with
    | none => simp [hp]
    | some s => simp [hp]

/-- C7 counterexample: `GET /share/abc/continue` with any session state is
answered by an HTTP 308 permanent redirect to `/share/abc` — not by an
authenticated upstream fetch wrapped in an envelope (a redirect, status
308, has no envelope body and uses no upstream data). -/
theorem C7_counterexample :
    get_share_chat_continue (ascii "abc") = .permanentRedirect (ascii "/share/abc") ∧
    (get_share_chat_continue (ascii "abc")).status = 308 :=
  ⟨rfl, rfl⟩

/-- C7 amended: every `GET /share/{id}/continue` request is answered by a
308 permanent redirect to `/share/{id}`; the handler takes no session and
performs no upstream call.  (The continue-data endpoint
`/_next/data/{BUILD_ID}/share/{id}/continue.json` is the variant that
fetches upstream and wraps.) -/
theorem C7_amended (share_id : List Nat) :
    get_share_chat_continue share_id = .permanentRedirect (ascii "/share/" ++ share_id) ∧
    (get_share_chat_continue share_id).status = 308 :=
  ⟨rfl, rfl⟩

/-- C8: logout always responds 303 with the session cookie cleared (empty
value, immediate expiry, `Path=/`) and `Location: /auth/login`, for every
incoming cookie state and every outcome of the best-effort upstream
revocation. -/
theorem C8_logout_always_clears (cookie : Option (List Nat))
    (rev : Except (List Nat) Unit) :
    (get_logout cookie rev).resp = .seeOtherCookie clearedCookie (ascii "/auth/login") ∧
    clearedCookie.name = ascii "opengpt_session" ∧
    clearedCookie.value = [] ∧
    clearedCookie.expiresNow = true ∧
    clearedCookie.path = ascii "/" ∧
    ((get_logout cookie rev).resp).status = 303 :=
  ⟨rfl, rfl, rfl, rfl, rfl, rfl⟩

/-- C1 counterexample: with the session cookie ABSENT, the chat data
endpoint (`/_next/data/{BUILD_ID}/index.json` handler) responds with an
HTTP 302 hard redirect to `/auth/login` — not HTTP 200 with the
soft-redirect body. -/
theorem C1_counterexample :
    get_chat_info (fun _ => true) none = Resp.found (ascii "/auth/login") ∧
    (get_chat_info (fun _ => true) none).status = 302 :=
  ⟨rfl, rfl⟩

/-- C1 amended: when a session cookie is PRESENT but fails to decode or
validate, the chat data endpoints answer HTTP 200 with exactly the
soft-redirect body, and the share-continue data endpoint answers HTTP 307
with a soft-redirect body pointing at
`/auth/login?next=%2Fshare%2F{id}%2Fcontinue`; when the cookie is ABSENT,
all three answer with a 302 hard redirect to `/auth/login`. -/
theorem C1_amended (checkToken : List Nat → Bool) (v share_id : List Nat)
    (u : Upstream) (e : ExtractErr)
    (hfail : extract_session checkToken v = .error e) :
    get_chat_info checkToken (some v) = .okJson [] softRedirectBody ∧
    (get_chat_info checkToken (some v)).status = 200 ∧
    get_share_chat_continue_info checkToken (some v) share_id u =
      .temporaryRedirectJson (softRedirectNextBody share_id) ∧
    (get_share_chat_continue_info checkToken (some v) share_id u).status = 307 ∧
    get_chat_info checkToken none = .found (ascii "/auth/login") ∧
    get_share_chat_continue_info checkToken none share_id u = .found (ascii "/auth/login") := by
  refine ⟨?_, ?_, ?_, ?_, rfl, rfl⟩ <;>
    simp [get_chat_info, get_share_chat_continue_info, hfail, Resp.status]

/-- Witness for C1 amended: the cookie value `"!"` is invalid base64. -/
theorem C1_amended_witness :
    extract_session (fun _ => true) [33] = .error .invalidSession ∧
    get_chat_info (fun _ => true) (some [33]) = .okJson [] softRedirectBody := by
  refine ⟨rfl, ?_⟩
  exact (C1_amended (fun _ => true) [33] (ascii "abc") (.body none) .invalidSession rfl).1

lemma containsSub_self (s : List Nat) : containsSub s s = true := by
  cases s with
  | nil => rfl
  | cons a rest =>
    simp only [containsSub, Bool.or_eq_true]
    exact Or.inl (List.isPrefixOf_iff_prefix.mpr (List.prefix_refl _))

/-- C4 counterexample: with a valid session, a TRANSPORT failure of the
upstream share request (`send()` returning `Err`) is propagated as a 500
internal-server error carrying the raw upstream error text — not as the
synthesized `notFound` response. -/
theorem C4_counterexample :
    get_share_chat_info (fun _ => true) (some (encodeSession sampleSession)) (ascii "abc")
        (.sendErr (ascii "connection reset")) =
      .raised (.internalServerError (ascii "connection reset")) ∧
    (get_share_chat_info (fun _ => true) (some (encodeSession sampleSession)) (ascii "abc")
        (.sendErr (ascii "connection reset"))).status = 500 := by
  have hx : extract_session (fun _ => true) (encodeSession sampleSession) = .ok sampleSession := by
    unfold extract_session
    rw [decode_encode sampleSession (by decide)]
    rfl
  constructor <;> simp [get_share_chat_info, hx, Resp.status]

/-- C4 amended: with a valid session, an upstream response body that fails
to parse as JSON yields the synthesized not-found response (data variants
`{"notFound": true}`, the page variant a 404 page whose props carry
`statusCode` 404 and page `/_error`); a transport-level `send()` failure is
instead propagated as a 500 internal-server error carrying the error
text. -/
theorem C4_amended (checkToken : List Nat → Bool) (v share_id : List Nat) (s : Session)
    (hok : extract_session checkToken v = .ok s) (m : List Nat) :
    get_share_chat checkToken (some v) share_id (.body none) =
      .okHtml "404.htm" sharePage404Props ∧
    jsonGet sharePage404Props "page" = some (.str (ascii "/_error")) ∧
    jsonGet sharePage404Props "props" =
      some (.obj [("pageProps", .obj [("statusCode", .num 404)])]) ∧
    get_share_chat_info checkToken (some v) share_id (.body none) = .okJson [] notFoundBody ∧
    get_share_chat_continue_info checkToken (some v) share_id (.body none) =
      .okJson [(ascii "referrer-policy", ascii "same-origin")] notFoundBody ∧
    get_share_chat checkToken (some v) share_id (.sendErr m) =
      .raised (.internalServerError m) ∧
    get_share_chat_info checkToken (some v) share_id (.sendErr m) =
      .raised (.internalServerError m) ∧
    get_share_chat_continue_info checkToken (some v) share_id (.sendErr m) =
      .raised (.internalServerError m) := by
  refine ⟨?_, rfl, rfl, ?_, ?_, ?_, ?_, ?_⟩ <;>
    simp [get_share_chat, get_share_chat_info, get_share_chat_continue_info, hok]

/-- Witness for C4 amended at a concrete valid cookie. -/
theorem C4_amended_witness :
    extract_session (fun _ => true) (encodeSession sampleSession) = .ok sampleSession ∧
    get_share_chat_info (fun _ => true) (some (encodeSession sampleSession)) (ascii "abc")
        (.body none) = .okJson [] notFoundBody := by
  have hx : extract_session (fun _ => true) (encodeSession sampleSession) = .ok sampleSession := by
    unfold extract_session
    rw [decode_encode sampleSession (by decide)]
    rfl
  exact ⟨hx, (C4_amended (fun _ => true) (encodeSession sampleSession) (ascii "abc")
    sampleSession hx []).2.2.2.1⟩

/-- C5 counterexample: a `continue_conversation_url` that does NOT start
with the upstream origin (here `"a" ++ origin`) is still rewritten — every
occurrence of the origin substring is removed, so the claim's "values not
starting with the origin are left unchanged" is false. -/
theorem C5_counterexample :
    List.isPrefixOf originBytes (97 :: originBytes) = false ∧
    stripOrigin (97 :: originBytes) = [97] ∧
    transformShareData (Json.obj [(ccuKey, Json.str (97 :: originBytes))]) =
      Json.obj [(ccuKey, Json.str [97])] :=
  ⟨by decide, by decide, rfl⟩

/-- C5 amended: the transform removes EVERY occurrence of
`https://chat.openai.com` from the string field (Rust `str::replace` with
the empty string).  In particular: a value containing no occurrence is
unchanged, and a value `origin ++ s` with `s` clean becomes `s` (the
spec's example `https://chat.openai.com/foo → /foo` holds). -/
theorem C5_amended (s : List Nat) (h : containsSub originBytes s = false) :
    stripOrigin s = s ∧
    stripOrigin (originBytes ++ s) = s ∧
    transformShareData (Json.obj [(ccuKey, Json.str (originBytes ++ s))]) =
      Json.obj [(ccuKey, Json.str s)] ∧
    transformShareData (Json.obj [(ccuKey, Json.str s)]) =
      Json.obj [(ccuKey, Json.str s)] := by
  refine ⟨stripOrigin_clean s h, stripOrigin_prefix s h, ?_, ?_⟩
  · simp [transformShareData, jsonGet, jsonInsert, insertField, List.find?,
      stripOrigin_prefix s h]
  · simp [transformShareData, jsonGet, jsonInsert, insertField, List.find?,
      stripOrigin_clean s h]

/-- Witness for C5 amended at `s = "/foo"`. -/
theorem C5_amended_witness :
    containsSub originBytes (ascii "/foo") = false ∧
    stripOrigin (originBytes ++ ascii "/foo") = ascii "/foo" :=
  ⟨by decide, (C5_amended (ascii "/foo") (by decide)).2.1⟩

/-- C9: when both captcha keys are configured, an absent or empty
challenge token fails with `BadRequest` before any network call; when not
both are configured, the check passes unconditionally, independent of the
token value. -/
theorem C9_captcha (data : TemplateData) (remoteip uuid : List Nat) (net : CfNet) :
    (∀ sk sec, data.cf_site_key = some sk → data.cf_secret_key = some sec →
      cf_captcha_check data none remoteip uuid net =
        .errNoCall (ascii "Missing cf_captcha_response") ∧
      cf_captcha_check data (some []) remoteip uuid net =
        .errNoCall (ascii "Missing cf_captcha_response")) ∧
    ((data.cf_site_key = none ∨ data.cf_secret_key = none) →
      ∀ t, cf_captcha_check data t remoteip uuid net = .okNoCall) := by
  obtain ⟨api, sk, sec⟩ := data
  constructor
  · intro sk0 sec0 h1 h2
    simp only at h1 h2
    subst h1
    subst h2
    exact ⟨rfl, rfl⟩
  · rintro (h | h) t
    · simp only at h
      subst h
      rfl
    · simp only at h
      subst h
      cases sk <;> rfl

/-- Witness for C9 at concrete configurations. -/
theorem C9_captcha_witness :
    cf_captcha_check ⟨none, some (ascii "k"), some (ascii "s")⟩ (some [])
        (ascii "1.2.3.4") (ascii "u") (.status true []) =
      .errNoCall (ascii "Missing cf_captcha_response") ∧
    cf_captcha_check ⟨none, none, some (ascii "s")⟩ (some (ascii "tkn"))
        (ascii "1.2.3.4") (ascii "u") (.status true []) = .okNoCall :=
  ⟨((C9_captcha ⟨none, some (ascii "k"), some (ascii "s")⟩ (ascii "1.2.3.4") (ascii "u")
      (.status true [])).1 _ _ rfl rfl).2,
   (C9_captcha ⟨none, none, some (ascii "s")⟩ (ascii "1.2.3.4") (ascii "u")
      (.status true [])).2 (Or.inl rfl) (some (ascii "tkn"))⟩

/-- C10 counterexample: `p.js` is NOT a registered key of the asset map,
yet the response is 200 with the bytes of `app.js` (whose key contains
`p.js` as a substring) — not 404. -/
theorem C10_counterexample :
    (sampleFiles.map Prod.fst).contains (ascii "p.js") = false ∧
    get_static_resource sampleFiles (ascii "p.js") =
      .okStatic (ascii "text/javascript") (ascii "JSDATA") ∧
    (get_static_resource sampleFiles (ascii "p.js")).status = 200 :=
  ⟨by decide, rfl, rfl⟩

/-- C10 amended: the resolver serves the FIRST asset (in map iteration
order) whose key contains the request path as a substring, with that
asset's bytes and mime type; it responds 404 exactly when no key contains
the path.  A registered key therefore gets a 200, but possibly with a
different asset's content. -/
theorem C10_amended (files : List (List Nat × StaticResource)) (path : List Nat) :
    ((∀ kv ∈ files, containsSub path kv.1 = false) →
        get_static_resource files path = .notFoundEmpty) ∧
    (path ∈ files.map Prod.fst →
        ∃ kv ∈ files, containsSub path kv.1 = true ∧
          get_static_resource files path = .okStatic kv.2.mime kv.2.data) := by
  constructor
  · intro hall
    have hnone : files.find? (fun kv => containsSub path kv.1) = none := by
      rw [List.find?_eq_none]
      intro kv hkv
      simp [hall kv hkv]
    simp [get_static_resource, hnone]
  · intro hmem
    have hself : containsSub path path = true := containsSub_self path
    have hsome : (files.find? (fun kv => containsSub path kv.1)).isSome := by
      rw [List.find?_isSome]
      simp only [List.mem_map] at hmem
      obtain ⟨kv, hkv, hfst⟩ := hmem
      exact ⟨kv, hkv, by simp [hfst, hself]⟩
    obtain ⟨kv, hkv⟩ := Option.isSome_iff_exists.mp hsome
    refine ⟨kv, List.mem_of_find?_eq_some hkv, ?_, ?_⟩
    · have := List.find?_some hkv
      simpa using this
    · simp [get_static_resource, hkv]

/-- Witness for C10 amended: requesting the registered key `app.js`. -/
theorem C10_amended_witness :
    ((ascii "app.js") ∈ sampleFiles.map Prod.fst) ∧
    (∃ kv ∈ sampleFiles, containsSub (ascii "app.js") kv.1 = true ∧
      get_static_resource sampleFiles (ascii "app.js") = .okStatic kv.2.mime kv.2.data) :=
  ⟨by decide, (C10_amended sampleFiles (ascii "app.js")).2 (by decide)⟩

/-- C6 counterexample: the registered redirect for `/chat/{conversation_id}`
(ui.rs line 140) targets `/`, not `/c/{id}`: dispatching
`GET /chat/x` yields the redirect-to-`/` handler. -/
theorem C6_counterexample :
    dispatch .get ["chat", "x"] = .hRedirect "/" ∧
    HandlerTag.hRedirect "/" ≠ HandlerTag.hRedirect "/c/x" :=
  ⟨by decide, by decide⟩

/-- C6 amended: `/chat` redirects to `/`, and `/chat/{id}` ALSO redirects
to `/` (not to `/c/{id}`), for every non-empty captured id. -/
theorem C6_amended (id : String) (h : id ≠ "") :
    dispatch .get ["chat"] = .hRedirect "/" ∧
    dispatch .get ["chat", id] = .hRedirect "/" := by
  refine ⟨by decide, ?_⟩
  have hb : (id != "") = true := by simp [h]
  simp [dispatch, routeTable, entryMatch, methodOk, segsMatch, List.find?, hb]

/-- Witness for C6 amended at id `x`. -/
theorem C6_amended_witness :
    ("x" : String) ≠ "" ∧ dispatch .get ["chat", "x"] = .hRedirect "/" :=
  ⟨by decide, (C6_amended "x" (by decide)).2⟩

end NinjaUi
